import Mathlib

/-!
Shallow embedding of the obscura_per on-chain program
(src/Backend/backend-mobile/programs/obscura-per/src/lib.rs).

Public keys are modelled as natural numbers; the three hard-coded base58
identities of the source are decoded to their underlying 256-bit integers.
u64 fields are naturals together with explicit checked arithmetic bounded
by 2^64 - 1, mirroring the source's `checked_add`/`checked_sub` calls.
Each Anchor instruction becomes a pure function from the caller identity,
the arguments, the clock value and the pre-state to `Except TxError
VaultState`; the Anchor account-constraint checks of the instruction
context run before the handler body, exactly as in the runtime.
External CPIs (the delegation program's delegate / commit /
commit-and-undelegate calls and the system-program lamport transfers) are
atomic black boxes that do not touch the fields of the vault record, so
they contribute nothing to the record model beyond their success.
-/

namespace ObscuraPer

/-- Public keys, modelled as natural numbers (only equality matters). -/
abbrev Pubkey := Nat

/-- `Pubkey::default()`, the all-zero sentinel key. -/
def pubkeyDefault : Pubkey := 0

/-- `u64::MAX`. -/
def U64_MAX : Nat := 2 ^ 64 - 1

/-- Rust `u64::checked_add`: `none` when the sum leaves the u64 range. -/
def checked_add (a b : Nat) : Option Nat :=
  if a + b ≤ U64_MAX then some (a + b) else none

/-- Rust `u64::checked_sub`: `none` on underflow. -/
def checked_sub (a b : Nat) : Option Nat :=
  if b ≤ a then some (a - b) else none

/-- The MagicBlock delegation program identity
`DELeGGvXpWV2fqJUhqcF5ZSYMS4JTLjteaAMARRSaeSh`, base58-decoded. -/
def DELEGATION_PROGRAM : Pubkey :=
  82191964697935119457304698719014317153249058529023526996863877687928147715902

/-- The MagicBlock access-control program identity
`ACLseoPoyC3cBqoUtkbjZ4aDrkurZW86v19pXz2XQnp1`, base58-decoded. -/
def ACCESS_CONTROL_PROGRAM : Pubkey :=
  61799084089904401117518745577874072762570263598723672670847438293788288902994

/-- The known TEE validator for Private ER,
`FnE6VJT5QNZdedZPnCoLsARgBwoE6DeJNjBs2H1gySXA`, base58-decoded.
The source compares `validator.to_string() == TEE_VALIDATOR`, i.e. pubkey
equality with this fixed identity. -/
def TEE_VALIDATOR : Pubkey :=
  99327830011137298935858179696237094876216502978853718827762084396116458965513

/-- The `ObscuraError` enum of the source, in declaration order. -/
inductive ObscuraError where
  | NotDelegated
  | InsufficientBalance
  | Unauthorized
  | AccountDelegated
  | InvalidValidator
  | PermissionExists
  | NotPrivate
deriving Repr, DecidableEq

/-- How an instruction can fail: a `require!`-style program error, or a
runtime abort from overflow-checked arithmetic (`checked_*.unwrap()`
panicking, or an overflow-checked increment). Either way the base ledger
aborts the whole transaction. -/
inductive TxError where
  | program : ObscuraError → TxError
  | overflowAbort
deriving Repr, DecidableEq

/-- The `VaultState` account of the source, field for field. -/
structure VaultState where
  owner : Pubkey
  vault_id : Nat
  balance : Nat
  is_delegated : Bool
  delegate_validator : Pubkey
  created_at : Int
  last_activity : Int
  nonce : Nat
  is_private : Bool
deriving Repr, DecidableEq

/-- The `PermissionState` account of the source. -/
structure PermissionState where
  vault : Pubkey
  permitted : Pubkey
  granted_by : Pubkey
  granted_at : Int
deriving Repr, DecidableEq

deriving instance DecidableEq for Except

/-- Modelled from the spec: the source increments the nonce with a plain
`vault.nonce += 1`, whose overflow behaviour is decided by the build
profile (the workspace Cargo.toml), which is not part of the sources here.
The spec states that arithmetic overflow on `nonce` aborts the operation
rather than wrapping or saturating, so the increment is modelled as
overflow-checked. -/
def nonce_incr (n : Nat) : Option Nat :=
  checked_add n 1

/-- `create_vault`: allocate a fresh vault record for the signing owner.
The caller becomes `owner`; balance, nonce and the delegation fields are
zeroed; both timestamps are stamped with the clock. -/
def create_vault (caller : Pubkey) (vault_id : Nat) (now : Int) : VaultState :=
  { owner := caller
    vault_id := vault_id
    balance := 0
    is_delegated := false
    delegate_validator := pubkeyDefault
    created_at := now
    last_activity := now
    nonce := 0
    is_private := false }

/-- `delegate_vault`: record the delegation metadata before the CPI hands
the account to the delegation program. The `DelegateVault` context places
no constraint relating the signer to `vault.owner`, so the caller identity
is not consulted. `is_private` is set when the validator is the TEE
identity and is left at its previous value otherwise. -/
def delegate_vault (_caller : Pubkey) (validator : Pubkey) (now : Int)
    (v : VaultState) : Except TxError VaultState :=
  .ok { v with
        is_delegated := true
        delegate_validator := validator
        last_activity := now
        is_private := if validator = TEE_VALIDATOR then true else v.is_private }

/-- `private_transfer`: requires delegation, sufficient balance and the
owner as signer, in that order; then debits the balance (checked), bumps
the nonce and stamps activity. The trailing commit-and-undelegate CPI
transfers authority externally but mutates no field of the record —
in particular it does not clear `is_delegated`. `recipient` is only
logged. -/
def private_transfer (caller : Pubkey) (amount : Nat) (_recipient : Pubkey)
    (now : Int) (v : VaultState) : Except TxError VaultState :=
  if ¬ v.is_delegated then .error (.program .NotDelegated)
  else if ¬ (amount ≤ v.balance) then .error (.program .InsufficientBalance)
  else if ¬ (v.owner = caller) then .error (.program .Unauthorized)
  else
    match checked_sub v.balance amount with
    | none => .error .overflowAbort
    | some b =>
      match nonce_incr v.nonce with
      | none => .error .overflowAbort
      | some n => .ok { v with balance := b, nonce := n, last_activity := now }

/-- `commit_vault_state`: stamp activity and push a checkpoint via the
commit CPI; no other field changes and no precondition is checked. -/
def commit_vault_state (_caller : Pubkey) (now : Int)
    (v : VaultState) : Except TxError VaultState :=
  .ok { v with last_activity := now }

/-- `undelegate_vault`: unconditionally clear the delegation flags and the
validator, stamp activity, then commit-and-undelegate via CPI. No
precondition is checked by the handler or its account context. -/
def undelegate_vault (_caller : Pubkey) (now : Int)
    (v : VaultState) : Except TxError VaultState :=
  .ok { v with
        is_delegated := false
        delegate_validator := pubkeyDefault
        is_private := false
        last_activity := now }

/-- `deposit`: any signer moves lamports into the vault PDA via the system
program (external), then `balance` grows by the same amount with
`checked_add(...).unwrap()`. Neither the context nor the handler checks
the caller identity or the delegation state. -/
def deposit (_depositor : Pubkey) (amount : Nat) (now : Int)
    (v : VaultState) : Except TxError VaultState :=
  match checked_add v.balance amount with
  | none => .error .overflowAbort
  | some b => .ok { v with balance := b, last_activity := now }

/-- `withdraw`: the `Withdraw` account context carries the Anchor
constraint `vault.owner == owner.key() @ Unauthorized`, checked before the
handler runs; the handler then requires the vault not delegated, a
sufficient balance, and (redundantly) the owner again, then debits the
balance (checked) and stamps activity. The lamport movement itself is
external to the record. -/
def withdraw (caller : Pubkey) (amount : Nat) (now : Int)
    (v : VaultState) : Except TxError VaultState :=
  if ¬ (v.owner = caller) then .error (.program .Unauthorized)
  else if v.is_delegated then .error (.program .AccountDelegated)
  else if ¬ (amount ≤ v.balance) then .error (.program .InsufficientBalance)
  else if ¬ (v.owner = caller) then .error (.program .Unauthorized)
  else
    match checked_sub v.balance amount with
    | none => .error .overflowAbort
    | some b => .ok { v with balance := b, last_activity := now }

/-- `create_permission`: the `CreatePermission` context constrains
`vault.owner == owner.key() @ Unauthorized`; on success a fresh
`PermissionState` is written and the vault record is untouched. -/
def create_permission (caller : Pubkey) (permitted_pubkey : Pubkey)
    (vaultAddr : Pubkey) (now : Int)
    (v : VaultState) : Except TxError (VaultState × PermissionState) :=
  if ¬ (v.owner = caller) then .error (.program .Unauthorized)
  else
    .ok (v, { vault := vaultAddr
              permitted := permitted_pubkey
              granted_by := caller
              granted_at := now })

/-- One invocation of any instruction that touches an existing vault
record, with its caller, arguments and clock value. -/
inductive Op where
  | delegate (caller validator : Pubkey) (now : Int)
  | transfer (caller : Pubkey) (amount : Nat) (recipient : Pubkey) (now : Int)
  | commit (caller : Pubkey) (now : Int)
  | undelegate (caller : Pubkey) (now : Int)
  | deposit (caller : Pubkey) (amount : Nat) (now : Int)
  | withdraw (caller : Pubkey) (amount : Nat) (now : Int)
  | permission (caller permitted vaultAddr : Pubkey) (now : Int)
deriving Repr, DecidableEq

/-- Apply one instruction to a vault record (for `create_permission`, the
vault component of its result). -/
def applyOp (op : Op) (v : VaultState) : Except TxError VaultState :=
  match op with
  | .delegate caller validator now => delegate_vault caller validator now v
  | .transfer caller amount recipient now =>
      private_transfer caller amount recipient now v
  | .commit caller now => commit_vault_state caller now v
  | .undelegate caller now => undelegate_vault caller now v
  | .deposit caller amount now => deposit caller amount now v
  | .withdraw caller amount now => withdraw caller amount now v
  | .permission caller permitted vaultAddr now =>
      (create_permission caller permitted vaultAddr now v).map Prod.fst

/-- Vault records reachable from `create_vault` by successful
instructions. -/
inductive Reachable : VaultState → Prop where
  | created (caller : Pubkey) (vault_id : Nat) (now : Int) :
      Reachable (create_vault caller vault_id now)
  | step {v v' : VaultState} (op : Op) :
      Reachable v → applyOp op v = .ok v' → Reachable v'

/-- The base ledger's transactional execution of one instruction result: a
failing instruction aborts the transaction and the persisted record stays
as it was before the call. -/
def run_tx (r : Except TxError VaultState) (pre : VaultState) : VaultState :=
  match r with
  | .ok v' => v'
  | .error _ => pre

/-! ### Concrete records used by the scenario evaluations and witnesses -/

/-- Step 0 of the §8 scenario: `create_vault(1)` by owner 100 at time 0. -/
def scenario_vault0 : VaultState := create_vault 100 1 0

/-- After `deposit(1000)`. -/
def scenario_vault1 : VaultState :=
  { scenario_vault0 with balance := 1000, last_activity := 1 }

/-- After `delegate_vault(TEE_VALIDATOR)`. -/
def scenario_vault2 : VaultState :=
  { scenario_vault1 with
    is_delegated := true
    delegate_validator := TEE_VALIDATOR
    is_private := true
    last_activity := 2 }

/-- After `private_transfer(400, recipient)`: note `is_delegated` is still
`true` in the record. -/
def scenario_vault3 : VaultState :=
  { scenario_vault2 with balance := 600, nonce := 1, last_activity := 3 }

/-- A vault in Local state, owned by key 100. -/
def vaultLocal : VaultState :=
  { owner := 100
    vault_id := 7
    balance := 50
    is_delegated := false
    delegate_validator := pubkeyDefault
    created_at := 0
    last_activity := 0
    nonce := 4
    is_private := false }

/-- The same vault delegated to an ordinary (non-TEE) validator. -/
def vaultDelegated : VaultState :=
  { vaultLocal with is_delegated := true, delegate_validator := 55 }

/-- A delegated vault whose nonce sits at `u64::MAX`. -/
def vaultMaxNonce : VaultState :=
  { vaultDelegated with nonce := U64_MAX }

/-- A vault whose balance already sits at `u64::MAX`. -/
def vaultNearMaxBalance : VaultState :=
  { vaultLocal with balance := U64_MAX }

/-- Result of `delegate_vault` called on `vaultLocal` by the non-owner key
200 at time 7. -/
def vaultLocalDelegatedByStranger : VaultState :=
  { vaultLocal with
    is_delegated := true
    delegate_validator := 55
    last_activity := 7 }

/-- Result of `undelegate_vault` on the already-Local `vaultLocal` at
time 5. -/
def vaultLocalUndelegated : VaultState :=
  { vaultLocal with last_activity := 5 }

/-- Result of a successful `private_transfer` of 5 on `vaultDelegated` at
time 3. -/
def vaultDelegatedAfterTransfer : VaultState :=
  { vaultDelegated with balance := 45, nonce := 5, last_activity := 3 }

/-- Intermediate state of the C4 counterexample run: a fresh vault
delegated to the TEE validator (private). -/
def c4_mid : VaultState :=
  { owner := 100
    vault_id := 1
    balance := 0
    is_delegated := true
    delegate_validator := TEE_VALIDATOR
    created_at := 0
    last_activity := 1
    nonce := 0
    is_private := true }

/-- End state of the C4 counterexample run: the same vault re-delegated to
the ordinary validator 42, with `is_private` still set. -/
def c4_end : VaultState :=
  { owner := 100
    vault_id := 1
    balance := 0
    is_delegated := true
    delegate_validator := 42
    created_at := 0
    last_activity := 2
    nonce := 0
    is_private := true }

end ObscuraPer

namespace ObscuraPer

/-! ## Characterizations of successful instructions -/

theorem delegate_vault_ok {caller validator : Pubkey} {now : Int}
    {v v' : VaultState}
    (h : delegate_vault caller validator now v = .ok v') :
    v' = { v with
           is_delegated := true
           delegate_validator := validator
           last_activity := now
           is_private := if validator = TEE_VALIDATOR then true
                         else v.is_private } := by
  unfold delegate_vault at h
  simp only [Except.ok.injEq] at h
  exact h.symm

theorem private_transfer_ok {caller : Pubkey} {amount : Nat}
    {recipient : Pubkey} {now : Int} {v v' : VaultState}
    (h : private_transfer caller amount recipient now v = .ok v') :
    v.is_delegated = true ∧ amount ≤ v.balance ∧ v.owner = caller ∧
    v.nonce + 1 ≤ U64_MAX ∧
    v' = { v with
           balance := v.balance - amount
           nonce := v.nonce + 1
           last_activity := now } := by
  unfold private_transfer at h
  by_cases h1 : v.is_delegated
  · by_cases h2 : amount ≤ v.balance
    · by_cases h3 : v.owner = caller
      · by_cases h4 : v.nonce + 1 ≤ U64_MAX
        · simp [h1, h2, h3, h4, checked_sub, nonce_incr, checked_add] at h
          exact ⟨h1, h2, h3, h4, h.symm.trans (by simp [h1, h3])⟩
        · simp [h1, h2, h3, h4, checked_sub, nonce_incr, checked_add] at h
      · simp [h1, h2, h3] at h
    · simp [h1, h2] at h
  · simp [h1] at h

theorem withdraw_ok {caller : Pubkey} {amount : Nat} {now : Int}
    {v v' : VaultState}
    (h : withdraw caller amount now v = .ok v') :
    v.owner = caller ∧ v.is_delegated = false ∧ amount ≤ v.balance ∧
    v' = { v with balance := v.balance - amount, last_activity := now } := by
  unfold withdraw at h
  by_cases h1 : v.owner = caller
  · by_cases h2 : v.is_delegated
    · simp [h1, h2] at h
    · have h2' : v.is_delegated = false := by simpa using h2
      by_cases h3 : amount ≤ v.balance
      · simp [h1, h2', h3, checked_sub] at h
        exact ⟨h1, h2', h3, h.symm.trans (by simp [h1, h2'])⟩
      · simp [h1, h2', h3] at h
  · simp [h1] at h

theorem deposit_ok {caller : Pubkey} {amount : Nat} {now : Int}
    {v v' : VaultState}
    (h : deposit caller amount now v = .ok v') :
    v.balance + amount ≤ U64_MAX ∧
    v' = { v with balance := v.balance + amount, last_activity := now } := by
  unfold deposit at h
  by_cases h1 : v.balance + amount ≤ U64_MAX
  · simp [h1, checked_add] at h
    exact ⟨h1, h.symm⟩
  · simp [h1, checked_add] at h

theorem commit_vault_state_ok {caller : Pubkey} {now : Int}
    {v v' : VaultState}
    (h : commit_vault_state caller now v = .ok v') :
    v' = { v with last_activity := now } := by
  unfold commit_vault_state at h
  simp only [Except.ok.injEq] at h
  exact h.symm

theorem undelegate_vault_ok {caller : Pubkey} {now : Int}
    {v v' : VaultState}
    (h : undelegate_vault caller now v = .ok v') :
    v' = { v with
           is_delegated := false
           delegate_validator := pubkeyDefault
           is_private := false
           last_activity := now } := by
  unfold undelegate_vault at h
  simp only [Except.ok.injEq] at h
  exact h.symm

theorem create_permission_vault_ok {caller permitted vaultAddr : Pubkey}
    {now : Int} {v v' : VaultState}
    (h : (create_permission caller permitted vaultAddr now v).map Prod.fst
           = .ok v') :
    v.owner = caller ∧ v' = v := by
  unfold create_permission at h
  by_cases h1 : v.owner = caller
  · simp [h1, Except.map] at h
    exact ⟨h1, h.symm⟩
  · simp [h1, Except.map] at h

/-! ## Claims -/

/-- Claim C1, evaluated: running the §8 scenario on the code, the
successful `private_transfer` leaves `is_delegated = true` in the record
(the handler never clears it), so the owner's subsequent `withdraw(600)`
fails with `AccountDelegated` instead of succeeding. -/
theorem c1_scenario_code_bug :
    deposit 100 1000 1 scenario_vault0 = .ok scenario_vault1 ∧
    scenario_vault1.balance = 1000 ∧
    delegate_vault 100 TEE_VALIDATOR 2 scenario_vault1 = .ok scenario_vault2 ∧
    scenario_vault2.is_delegated = true ∧
    scenario_vault2.is_private = true ∧
    private_transfer 100 400 777 3 scenario_vault2 = .ok scenario_vault3 ∧
    scenario_vault3.balance = 600 ∧
    scenario_vault3.nonce = 1 ∧
    scenario_vault3.is_delegated = true ∧
    withdraw 100 600 4 scenario_vault3 =
      .error (.program .AccountDelegated) := by
  decide

/-- Claim C2 is false on the code: a `delegate_vault` call by key 200 on a
vault owned by key 100 succeeds and changes the record. -/
theorem c2_counterexample :
    vaultLocal.owner ≠ 200 ∧
    vaultLocal.is_delegated = false ∧
    delegate_vault 200 55 7 vaultLocal = .ok vaultLocalDelegatedByStranger ∧
    vaultLocalDelegatedByStranger ≠ vaultLocal := by
  decide

/-- Claim C2 as amended: `delegate_vault` enforces no caller-identity
precondition; even when the caller differs from the vault's owner the call
succeeds, setting `is_delegated`, recording the validator, stamping
activity, and setting `is_private` when the validator is the TEE identity
while leaving it untouched otherwise. -/
theorem c2_delegate_no_owner_check (caller validator : Pubkey) (now : Int)
    (v : VaultState) (_h : v.owner ≠ caller) :
    delegate_vault caller validator now v =
      .ok { v with
            is_delegated := true
            delegate_validator := validator
            last_activity := now
            is_private := if validator = TEE_VALIDATOR then true
                          else v.is_private } :=
  rfl

/-- Witness for the amended C2 at a concrete non-owner call. -/
theorem c2_witness :
    delegate_vault 200 55 7 vaultLocal = .ok vaultLocalDelegatedByStranger := by
  rw [c2_delegate_no_owner_check 200 55 7 vaultLocal (by decide)]
  decide

/-- Claim C3 is false on the code: on a delegated vault, a withdraw by a
non-owner fails with `Unauthorized` (the Anchor account constraint runs
before the handler), not with `AccountDelegated`. -/
theorem c3_counterexample :
    vaultDelegated.is_delegated = true ∧
    vaultDelegated.owner ≠ 200 ∧
    withdraw 200 50 5 vaultDelegated = .error (.program .Unauthorized) ∧
    withdraw 200 50 5 vaultDelegated ≠
      .error (.program .AccountDelegated) := by
  decide

/-- Claim C3 as amended: on a delegated vault every withdraw fails
regardless of amount — with `AccountDelegated` when the caller is the
owner, and with `Unauthorized` (from the account constraint) otherwise. -/
theorem c3_withdraw_while_delegated (caller : Pubkey) (amount : Nat)
    (now : Int) (v : VaultState) (h : v.is_delegated = true) :
    withdraw caller amount now v =
      .error (.program (if v.owner = caller then ObscuraError.AccountDelegated
                        else ObscuraError.Unauthorized)) := by
  unfold withdraw
  by_cases hc : v.owner = caller
  · simp [hc, h]
  · simp [hc]

/-- Witness for the amended C3: the owner withdrawing from a delegated
vault gets `AccountDelegated`. -/
theorem c3_witness :
    vaultDelegated.is_delegated = true ∧
    withdraw 100 50 5 vaultDelegated =
      .error (.program .AccountDelegated) := by
  refine ⟨rfl, ?_⟩
  rw [c3_withdraw_while_delegated 100 50 5 vaultDelegated rfl]
  decide

/-- Claim C4 is false on the code: re-delegating an already-private vault
to the ordinary validator 42 (nothing guards against re-delegation)
reaches a state with `is_private = true` but `delegate_validator` not the
TEE identity, because `delegate_vault` never clears `is_private`. -/
theorem c4_counterexample :
    Reachable c4_end ∧
    c4_end.is_private = true ∧
    c4_end.delegate_validator ≠ TEE_VALIDATOR ∧
    ¬ (c4_end.is_private = true ↔
        c4_end.delegate_validator = TEE_VALIDATOR) := by
  refine ⟨?_, by decide, by decide, by decide⟩
  exact Reachable.step (v := c4_mid) (Op.delegate 100 42 2)
    (Reachable.step (v := create_vault 100 1 0)
      (Op.delegate 100 TEE_VALIDATOR 1)
      (Reachable.created 100 1 0) (by decide))
    (by decide)

/-- Claim C4 as amended: in every reachable state `is_private` implies
`is_delegated`, and `delegate_validator` equal to the TEE identity implies
`is_private`; the converse direction of the iff fails (see the
counterexample). -/
theorem c4_reachable_invariant (v : VaultState) (h : Reachable v) :
    (v.is_private = true → v.is_delegated = true) ∧
    (v.delegate_validator = TEE_VALIDATOR → v.is_private = true) := by
  induction h with
  | created caller vault_id now =>
      constructor
      · simp [create_vault]
      · intro hv
        simp only [create_vault] at hv
        exact absurd hv (by decide)
  | step op hr hok ih =>
      cases op with
      | delegate caller validator now =>
          unfold applyOp at hok
          have he := delegate_vault_ok hok
          subst he
          constructor
          · intro _; rfl
          · intro hval
            simp only at hval
            simp [hval]
      | transfer caller amount recipient now =>
          unfold applyOp at hok
          have he := (private_transfer_ok hok).2.2.2.2
          subst he
          simpa using ih
      | commit caller now =>
          unfold applyOp at hok
          have he := commit_vault_state_ok hok
          subst he
          simpa using ih
      | undelegate caller now =>
          unfold applyOp at hok
          have he := undelegate_vault_ok hok
          subst he
          constructor
          · intro hp; cases hp
          · intro hval
            simp only at hval
            exact absurd hval (by decide)
      | deposit caller amount now =>
          unfold applyOp at hok
          have he := (deposit_ok hok).2
          subst he
          simpa using ih
      | withdraw caller amount now =>
          unfold applyOp at hok
          have he := (withdraw_ok hok).2.2.2
          subst he
          simpa using ih
      | permission caller permitted vaultAddr now =>
          unfold applyOp at hok
          have he := (create_permission_vault_ok hok).2
          subst he
          exact ih

/-- Witness for the amended C4 at the freshly created vault. -/
theorem c4_witness :
    ((create_vault 5 1 0).is_private = true →
      (create_vault 5 1 0).is_delegated = true) ∧
    ((create_vault 5 1 0).delegate_validator = TEE_VALIDATOR →
      (create_vault 5 1 0).is_private = true) :=
  c4_reachable_invariant (create_vault 5 1 0) (Reachable.created 5 1 0)



/-- Claim C5: the nonce never decreases under any successful instruction;
a successful `private_transfer` raises it by exactly 1, and successful
`deposit`, `withdraw`, `commit_vault_state` and `create_permission` leave
it unchanged. -/
theorem c5_nonce_monotone (op : Op) (v v' : VaultState)
    (h : applyOp op v = .ok v') :
    v.nonce ≤ v'.nonce ∧
    (∀ caller amount recipient now,
        op = Op.transfer caller amount recipient now →
        v'.nonce = v.nonce + 1) ∧
    (∀ caller amount now, op = Op.deposit caller amount now →
        v'.nonce = v.nonce) ∧
    (∀ caller amount now, op = Op.withdraw caller amount now →
        v'.nonce = v.nonce) ∧
    (∀ caller now, op = Op.commit caller now → v'.nonce = v.nonce) ∧
    (∀ caller permitted vaultAddr now,
        op = Op.permission caller permitted vaultAddr now →
        v'.nonce = v.nonce) := by
  cases op with
  | delegate caller validator now =>
      unfold applyOp at h
      have he := delegate_vault_ok h
      subst he
      exact ⟨Nat.le_refl _,
        (fun _ _ _ _ heq => nomatch heq),
        (fun _ _ _ heq => nomatch heq),
        (fun _ _ _ heq => nomatch heq),
        (fun _ _ heq => nomatch heq),
        (fun _ _ _ _ heq => nomatch heq)⟩
  | transfer caller amount recipient now =>
      unfold applyOp at h
      have he := (private_transfer_ok h).2.2.2.2
      subst he
      exact ⟨Nat.le_succ _,
        (fun _ _ _ _ _ => rfl),
        (fun _ _ _ heq => nomatch heq),
        (fun _ _ _ heq => nomatch heq),
        (fun _ _ heq => nomatch heq),
        (fun _ _ _ _ heq => nomatch heq)⟩
  | commit caller now =>
      unfold applyOp at h
      have he := commit_vault_state_ok h
      subst he
      exact ⟨Nat.le_refl _,
        (fun _ _ _ _ heq => nomatch heq),
        (fun _ _ _ heq => nomatch heq),
        (fun _ _ _ heq => nomatch heq),
        (fun _ _ _ => rfl),
        (fun _ _ _ _ heq => nomatch heq)⟩
  | undelegate caller now =>
      unfold applyOp at h
      have he := undelegate_vault_ok h
      subst he
      exact ⟨Nat.le_refl _,
        (fun _ _ _ _ heq => nomatch heq),
        (fun _ _ _ heq => nomatch heq),
        (fun _ _ _ heq => nomatch heq),
        (fun _ _ heq => nomatch heq),
        (fun _ _ _ _ heq => nomatch heq)⟩
  | deposit caller amount now =>
      unfold applyOp at h
      have he := (deposit_ok h).2
      subst he
      exact ⟨Nat.le_refl _,
        (fun _ _ _ _ heq => nomatch heq),
        (fun _ _ _ _ => rfl),
        (fun _ _ _ heq => nomatch heq),
        (fun _ _ heq => nomatch heq),
        (fun _ _ _ _ heq => nomatch heq)⟩
  | withdraw caller amount now =>
      unfold applyOp at h
      have he := (withdraw_ok h).2.2.2
      subst he
      exact ⟨Nat.le_refl _,
        (fun _ _ _ _ heq => nomatch heq),
        (fun _ _ _ heq => nomatch heq),
        (fun _ _ _ _ => rfl),
        (fun _ _ heq => nomatch heq),
        (fun _ _ _ _ heq => nomatch heq)⟩
  | permission caller permitted vaultAddr now =>
      unfold applyOp at h
      have he := (create_permission_vault_ok h).2
      subst he
      exact ⟨Nat.le_refl _,
        (fun _ _ _ _ heq => nomatch heq),
        (fun _ _ _ heq => nomatch heq),
        (fun _ _ _ heq => nomatch heq),
        (fun _ _ heq => nomatch heq),
        (fun _ _ _ _ _ => rfl)⟩

/-- Witness for C5 at a concrete successful private transfer. -/
theorem c5_witness :
    applyOp (Op.transfer 100 5 9 3) vaultDelegated =
      .ok vaultDelegatedAfterTransfer ∧
    vaultDelegated.nonce ≤ vaultDelegatedAfterTransfer.nonce ∧
    vaultDelegatedAfterTransfer.nonce = vaultDelegated.nonce + 1 := by
  refine ⟨by decide, ?_, ?_⟩
  · exact (c5_nonce_monotone (Op.transfer 100 5 9 3) vaultDelegated
      vaultDelegatedAfterTransfer (by decide)).1
  · exact (c5_nonce_monotone (Op.transfer 100 5 9 3) vaultDelegated
      vaultDelegatedAfterTransfer (by decide)).2.1 100 5 9 3 rfl

/-- Claim C6: every precondition check of `private_transfer` and
`withdraw` reads only the pre-state and aborts the call with the matching
error before any field is written, and a failed call leaves the persisted
record unchanged under the ledger's transactional semantics. -/
theorem c6_checks_precede_mutation (caller : Pubkey) (amount : Nat)
    (recipient : Pubkey) (now : Int) (v : VaultState) :
    (v.is_delegated = false →
        private_transfer caller amount recipient now v =
          .error (.program .NotDelegated)) ∧
    (v.is_delegated = true → v.balance < amount →
        private_transfer caller amount recipient now v =
          .error (.program .InsufficientBalance)) ∧
    (v.is_delegated = true → amount ≤ v.balance → v.owner ≠ caller →
        private_transfer caller amount recipient now v =
          .error (.program .Unauthorized)) ∧
    (v.owner ≠ caller →
        withdraw caller amount now v = .error (.program .Unauthorized)) ∧
    (v.owner = caller → v.is_delegated = true →
        withdraw caller amount now v =
          .error (.program .AccountDelegated)) ∧
    (v.owner = caller → v.is_delegated = false → v.balance < amount →
        withdraw caller amount now v =
          .error (.program .InsufficientBalance)) ∧
    (∀ e, private_transfer caller amount recipient now v = .error e →
        run_tx (private_transfer caller amount recipient now v) v = v) ∧
    (∀ e, withdraw caller amount now v = .error e →
        run_tx (withdraw caller amount now v) v = v) := by
  refine ⟨?_, ?_, ?_, ?_, ?_, ?_, ?_, ?_⟩
  · intro h1
    simp [private_transfer, h1]
  · intro h1 h2
    simp [private_transfer, h1, not_le.mpr h2]
  · intro h1 h2 h3
    simp [private_transfer, h1, h2, h3]
  · intro h1
    simp [withdraw, h1]
  · intro h1 h2
    simp [withdraw, h1, h2]
  · intro h1 h2 h3
    simp [withdraw, h1, h2, not_le.mpr h3]
  · intro e he
    simp [run_tx, he]
  · intro e he
    simp [run_tx, he]

/-- Witness for C6: each failing precondition evaluated at a concrete
vault, plus the unchanged-record conclusion. -/
theorem c6_witness :
    private_transfer 100 5 9 3 vaultLocal =
      .error (.program .NotDelegated) ∧
    private_transfer 100 51 9 3 vaultDelegated =
      .error (.program .InsufficientBalance) ∧
    private_transfer 200 5 9 3 vaultDelegated =
      .error (.program .Unauthorized) ∧
    withdraw 200 5 3 vaultLocal = .error (.program .Unauthorized) ∧
    withdraw 100 5 3 vaultDelegated = .error (.program .AccountDelegated) ∧
    withdraw 100 51 3 vaultLocal =
      .error (.program .InsufficientBalance) ∧
    run_tx (private_transfer 100 5 9 3 vaultLocal) vaultLocal = vaultLocal ∧
    run_tx (withdraw 200 5 3 vaultLocal) vaultLocal = vaultLocal := by
  refine ⟨?_, ?_, ?_, ?_, ?_, ?_, ?_, ?_⟩
  · exact (c6_checks_precede_mutation 100 5 9 3 vaultLocal).1 rfl
  · exact (c6_checks_precede_mutation 100 51 9 3 vaultDelegated).2.1
      rfl (by decide)
  · exact (c6_checks_precede_mutation 200 5 9 3 vaultDelegated).2.2.1
      rfl (by decide) (by decide)
  · exact (c6_checks_precede_mutation 200 5 9 3 vaultLocal).2.2.2.1
      (by decide)
  · exact (c6_checks_precede_mutation 100 5 9 3 vaultDelegated).2.2.2.2.1
      rfl rfl
  · exact (c6_checks_precede_mutation 100 51 9 3 vaultLocal).2.2.2.2.2.1
      rfl rfl (by decide)
  · exact (c6_checks_precede_mutation 100 5 9 3 vaultLocal).2.2.2.2.2.2.1
      (.program .NotDelegated)
      ((c6_checks_precede_mutation 100 5 9 3 vaultLocal).1 rfl)
  · exact (c6_checks_precede_mutation 200 5 9 3 vaultLocal).2.2.2.2.2.2.2
      (.program .Unauthorized)
      ((c6_checks_precede_mutation 200 5 9 3 vaultLocal).2.2.2.1 (by decide))

/-- Claim C7: balance and nonce arithmetic never wraps or saturates —
deposit aborts when the balance would exceed `u64::MAX`; private_transfer
and withdraw never succeed when the amount exceeds the balance; and a
private_transfer at `nonce = u64::MAX` aborts instead of wrapping the
nonce to 0. -/
theorem c7_checked_arith (caller : Pubkey) (amount : Nat)
    (recipient : Pubkey) (now : Int) (v : VaultState) :
    (U64_MAX < v.balance + amount →
        deposit caller amount now v = .error .overflowAbort) ∧
    (v.balance < amount →
        ∀ v', private_transfer caller amount recipient now v ≠ .ok v') ∧
    (v.balance < amount →
        ∀ v', withdraw caller amount now v ≠ .ok v') ∧
    (v.nonce = U64_MAX →
        ∀ v', private_transfer caller amount recipient now v ≠ .ok v') ∧
    (v.nonce = U64_MAX → v.is_delegated = true → amount ≤ v.balance →
        v.owner = caller →
        private_transfer caller amount recipient now v =
          .error .overflowAbort) := by
  refine ⟨?_, ?_, ?_, ?_, ?_⟩
  · intro h1
    simp [deposit, checked_add, not_le.mpr h1]
  · intro h1 v' hok
    exact absurd (private_transfer_ok hok).2.1 (not_le.mpr h1)
  · intro h1 v' hok
    exact absurd (withdraw_ok hok).2.2.1 (not_le.mpr h1)
  · intro h1 v' hok
    have h2 := (private_transfer_ok hok).2.2.2.1
    rw [h1] at h2
    exact absurd h2 (Nat.not_succ_le_self _)
  · intro h1 h2 h3 h4
    simp [private_transfer, h1, h2, h3, h4, checked_sub, nonce_incr,
      checked_add, Nat.not_succ_le_self]

/-- Witness for C7 at concrete overflow and underflow inputs. -/
theorem c7_witness :
    deposit 100 1 5 vaultNearMaxBalance = .error .overflowAbort ∧
    private_transfer 100 51 9 3 vaultDelegated ≠
      .ok vaultDelegatedAfterTransfer ∧
    withdraw 100 51 3 vaultLocal ≠ .ok vaultLocal ∧
    private_transfer 100 5 9 3 vaultMaxNonce ≠ .ok vaultMaxNonce ∧
    private_transfer 100 5 9 3 vaultMaxNonce = .error .overflowAbort := by
  refine ⟨?_, ?_, ?_, ?_, ?_⟩
  · exact (c7_checked_arith 100 1 9 5 vaultNearMaxBalance).1 (by decide)
  · exact (c7_checked_arith 100 51 9 3 vaultDelegated).2.1 (by decide)
      vaultDelegatedAfterTransfer
  · exact (c7_checked_arith 100 51 9 3 vaultLocal).2.2.1 (by decide)
      vaultLocal
  · exact (c7_checked_arith 100 5 9 3 vaultMaxNonce).2.2.2.1 rfl
      vaultMaxNonce
  · exact (c7_checked_arith 100 5 9 3 vaultMaxNonce).2.2.2.2 rfl rfl
      (by decide) rfl

/-- Claim C8: a successful `undelegate_vault` — which every call is —
leaves `is_delegated = false`, the validator at the zero sentinel and
`is_private = false`, for any prior validator, touching nothing else but
`last_activity`. -/
theorem c8_undelegate_resets (caller : Pubkey) (now : Int) (v : VaultState) :
    ∃ v', undelegate_vault caller now v = .ok v' ∧
      v'.is_delegated = false ∧ v'.delegate_validator = pubkeyDefault ∧
      v'.is_private = false ∧ v'.owner = v.owner ∧ v'.balance = v.balance ∧
      v'.nonce = v.nonce ∧ v'.last_activity = now :=
  ⟨_, rfl, rfl, rfl, rfl, rfl, rfl, rfl, rfl⟩

/-- Claim C9 is false on the code: `undelegate_vault` on a vault already
in Local state succeeds as a normal transition. -/
theorem c9_counterexample :
    vaultLocal.is_delegated = false ∧
    undelegate_vault 100 5 vaultLocal = .ok vaultLocalUndelegated := by
  decide

/-- Claim C9 as amended: `undelegate_vault` enforces no delegation
precondition in this controller; on a Local vault it succeeds, is
idempotent on the delegation flags, and changes only `last_activity`. -/
theorem c9_undelegate_unguarded (caller : Pubkey) (now : Int)
    (v : VaultState) (h : v.is_delegated = false) :
    undelegate_vault caller now v =
      .ok { v with
            delegate_validator := pubkeyDefault
            is_private := false
            last_activity := now
            is_delegated := v.is_delegated } := by
  simp [undelegate_vault, h]

/-- Witness for the amended C9 at a concrete Local vault. -/
theorem c9_witness :
    undelegate_vault 200 9 vaultLocal =
      .ok { vaultLocal with
            delegate_validator := pubkeyDefault
            is_private := false
            last_activity := 9
            is_delegated := vaultLocal.is_delegated } :=
  c9_undelegate_unguarded 200 9 vaultLocal rfl

/-- Claim C10: `deposit` checks no caller identity and no delegation
state — it can only fail on balance overflow, never with a program
error — and on success it adds exactly the amount to `balance`, stamps
`last_activity` and leaves every other field unchanged. -/
theorem c10_deposit_open (caller : Pubkey) (amount : Nat) (now : Int)
    (v : VaultState) :
    (∀ err : ObscuraError,
        deposit caller amount now v ≠ .error (.program err)) ∧
    (v.balance + amount ≤ U64_MAX →
        deposit caller amount now v =
          .ok { v with
                balance := v.balance + amount
                last_activity := now }) := by
  constructor
  · intro err hok
    unfold deposit at hok
    cases hca : checked_add v.balance amount with
    | none => rw [hca] at hok; simp at hok
    | some b => rw [hca] at hok; simp at hok
  · intro h1
    simp [deposit, checked_add, h1]

/-- Witness for C10: a non-owner deposit on a Local vault succeeds and
cannot produce the identity or delegation errors. -/
theorem c10_witness :
    deposit 200 10 5 vaultLocal =
      .ok { vaultLocal with balance := 60, last_activity := 5 } ∧
    deposit 200 10 5 vaultLocal ≠ .error (.program .Unauthorized) ∧
    deposit 200 10 5 vaultLocal ≠ .error (.program .AccountDelegated) ∧
    deposit 200 10 5 vaultLocal ≠ .error (.program .NotDelegated) := by
  refine ⟨?_, ?_, ?_, ?_⟩
  · rw [(c10_deposit_open 200 10 5 vaultLocal).2 (by decide)]
    decide
  · exact (c10_deposit_open 200 10 5 vaultLocal).1 .Unauthorized
  · exact (c10_deposit_open 200 10 5 vaultLocal).1 .AccountDelegated
  · exact (c10_deposit_open 200 10 5 vaultLocal).1 .NotDelegated

end ObscuraPer
